import Mathlib

/-!
Shallow embedding of the event-notification core of
`drivers/platform/mips/yeeloong_laptop.c` (YeeLoong laptop platform driver):
the SCI interrupt entry point, per-event dispatch, the stateful hotkey
handlers (video-output cycling, brightness/volume direction detection,
camera, display toggle, lid reporting) and the interrupt arming routine.

EC register reads are modelled by an environment `env : Reg → Nat` giving the
byte currently held by each named register; EC writes, display-output
programming and input-layer notifications are modelled as an explicit trace
of `Effect`s.  The C `static` locals (`video_output_status`,
`old_brightness_status`, `old_volume_status`) become fields of an explicit
`DriverState` record threaded through the handlers.
-/

set_option linter.unusedVariables false

namespace Yeeloong

/-- `#define ON 1` from the source. -/
def ON : Int := 1

/-- `#define OFF 0` from the source. -/
def OFF : Int := 0

/-- `#define LCD 0` from the source (video output controller). -/
def LCD : Int := 0

/-- `#define CRT 1` from the source (video output controller). -/
def CRT : Int := 1

/-- Linux input-layer switch code `SW_LID` (external collaborator constant). -/
def SW_LID : Int := 0

/-- Linux input-layer key codes used by the keymap (external collaborator
constants from the input subsystem headers). -/
def KEY_CAMERA : Int := 212

def KEY_SLEEP : Int := 142

def KEY_DISPLAYTOGGLE : Int := 431

def KEY_SWITCHVIDEOMODE : Int := 227

def KEY_MUTE : Int := 113

def KEY_WLAN : Int := 238

def KEY_BRIGHTNESSUP : Int := 225

def KEY_BRIGHTNESSDOWN : Int := 224

def KEY_VOLUMEUP : Int := 115

def KEY_VOLUMEDOWN : Int := 114

/-- Modelled from the spec: the EC event codes `EVENT_*` are defined in the
companion header `ec_kb3310b.h` of this repository, which is not under
`src/`; per spec §3 they are distinct integers drawn from one bounded
contiguous range.  The claims settled here depend only on the codes being
pairwise distinct, so we fix one contiguous assignment. -/
def EVENT_LID : Int := 0x80

def EVENT_DISPLAY_TOGGLE : Int := 0x81

def EVENT_SLEEP : Int := 0x82

def EVENT_SWITCHVIDEOMODE : Int := 0x83

def EVENT_AUDIO_MUTE : Int := 0x84

def EVENT_DISPLAY_BRIGHTNESS : Int := 0x85

def EVENT_AC_BAT : Int := 0x86

def EVENT_AUDIO_VOLUME : Int := 0x87

def EVENT_WLAN : Int := 0x88

def EVENT_USB_OC2 : Int := 0x89

def EVENT_CRT_DETECT : Int := 0x8a

def EVENT_CAMERA : Int := 0x8b

def EVENT_USB_OC0 : Int := 0x8c

/-- The EC registers named by the dispatch table and handlers.  Their numeric
addresses live in the companion header (not under `src/`); only their
identity matters to the core, so they are an enumerated type. -/
inductive Reg where
  | LID_DETECT
  | CRT_DETECT
  | CAMERA_STATUS
  | CAMERA_CONTROL
  | USB2_FLAG
  | USB0_FLAG
  | DISPLAY_LCD
  | AUDIO_MUTE
  | DISPLAY_BRIGHTNESS
  | AUDIO_VOLUME
deriving DecidableEq, Repr

/-- Observable side effects of the dispatch path: display-output programming
(`display_vo_set`), EC register writes, input-layer notifications
(switch report, sync, sparse-keymap key report), power-supply change
notifications and the two USB over-current log messages. -/
inductive Effect where
  | display_vo_set (display : Int) (onoff : Int)
  | ec_write (reg : Reg) (val : Nat)
  | input_report_switch (sw : Int) (value : Bool)
  | input_sync
  | sparse_keymap_report (index : Nat)
  | power_supply_changed_ac
  | power_supply_changed_bat
  | log_usb2_oc
  | log_usb0_oc
deriving DecidableEq, Repr

/-- The driver's persistent handler state: the three C `static` locals
`video_output_status` (in `switchvideomode_handler`, implicitly 0),
`old_brightness_status` and `old_volume_status` (in `get_event_key_entry`,
both initialized to -1). -/
structure DriverState where
  video_output_status : Int
  old_brightness_status : Int
  old_volume_status : Int
deriving DecidableEq, Repr

/-- The state at driver initialization: C zero-initializes
`video_output_status` and the source initializes both direction samples
to `-1`. -/
def driverInit : DriverState := ⟨0, -1, -1⟩

/-- ASCII `tolower` on a byte, as used by `strncasecmp`. -/
def tolower (c : Nat) : Nat := if 65 ≤ c ∧ c ≤ 90 then c + 32 else c

/-- C `strncasecmp(s1, s2, n)`: compare at most `n` bytes of two
NUL-terminated strings case-insensitively; a string shorter than `n` is
padded by its NUL terminator (modelled by `headD 0`).  Stops at the first
differing byte or at a shared NUL, returning the (signed) difference of the
lowered bytes. -/
def strncasecmp : List Nat → List Nat → Nat → Int
  | _, _, 0 => 0
  | s1, s2, n + 1 =>
    let c1 := tolower (s1.headD 0)
    let c2 := tolower (s2.headD 0)
    if c1 ≠ c2 then (c1 : Int) - (c2 : Int)
    else if c1 = 0 then 0
    else strncasecmp s1.tail s2.tail n

/-- Byte list of a string literal. -/
def asciiOf (s : String) : List Nat := s.data.map Char.toNat

/-- `ec_version_before(version)`: true when the EC firmware version string
`ec_kb3310b_ver` (an external global, here a parameter) compares strictly
less than `version` under `strncasecmp` over at most 64 bytes. -/
def ec_version_before (ec_kb3310b_ver version : List Nat) : Bool :=
  decide (strncasecmp ec_kb3310b_ver version 64 < 0)

/-- `yeeloong_vo_set(lcd_status, crt_status)`: program the LCD output then
the CRT output. -/
def yeeloong_vo_set (lcd_status crt_status : Int) : List Effect :=
  [Effect.display_vo_set LCD lcd_status, Effect.display_vo_set CRT crt_status]

/-- `crt_detect_handler(status)`: both outputs on when a CRT is present,
otherwise LCD on / CRT off; returns `status`. -/
def crt_detect_handler (status : Int) : List Effect × Int :=
  (if status ≠ 0 then yeeloong_vo_set ON ON else yeeloong_vo_set ON OFF, status)

/-- `displaytoggle_handler(status)`: apply `display_vo_set(LCD, status)` only
when the EC firmware predates "EC_VER=PQ1D26" (newer EC firmware performs
the toggle itself); returns `status`. -/
def displaytoggle_handler (ec_kb3310b_ver : List Nat) (status : Int) :
    List Effect × Int :=
  (if ec_version_before ec_kb3310b_ver (asciiOf ("EC_VER=PQ1D26"))
   then [Effect.display_vo_set LCD status] else [], status)

/-- Result of one `switchvideomode_handler` invocation: the new
`video_output_status`, the emitted display-output effects, and the returned
status. -/
structure SVMResult where
  vos : Int
  effects : List Effect
  ret : Int
deriving DecidableEq, Repr

/-- `switchvideomode_handler(status)`: bail out (returning 0, no effect)
unless `ec_read(REG_CRT_DETECT)` is nonzero; otherwise advance the cycle
index (wrapping past 4 back to 1) and program the matching (LCD, CRT)
output pair.  `crt_detect` is the value read from `REG_CRT_DETECT` and
`vos` the current `video_output_status`. -/
def switchvideomode_handler (crt_detect status vos : Int) : SVMResult :=
  if crt_detect = OFF then ⟨vos, [], 0⟩
  else
    let v0 := vos + 1
    let v := if v0 > 4 then 1 else v0
    let eff :=
      if v = 1 then yeeloong_vo_set ON ON
      else if v = 2 then yeeloong_vo_set OFF ON
      else if v = 3 then yeeloong_vo_set OFF OFF
      else if v = 4 then yeeloong_vo_set ON OFF
      else [Effect.display_vo_set LCD ON]
    ⟨v, eff, v⟩

/-- `camera_handler(status)`: read `REG_CAMERA_CONTROL` (value `cam`), write
it back with bit 1 set, return `status` unchanged. -/
def camera_handler (cam : Nat) (status : Int) : List Effect × Int :=
  ([Effect.ec_write Reg.CAMERA_CONTROL (cam ||| (1 <<< 1))], status)

/-- `usb2_handler(status)`: log the USB2 over-current condition, return
`status`. -/
def usb2_handler (status : Int) : List Effect × Int :=
  ([Effect.log_usb2_oc], status)

/-- `usb0_handler(status)`: log the USB0 over-current condition, return
`status`. -/
def usb0_handler (status : Int) : List Effect × Int :=
  ([Effect.log_usb0_oc], status)

/-- `ac_bat_handler(status)`: when the power-supply objects are registered
(`ac_bat_initialized`), notify both of a property change; returns
`status`. -/
def ac_bat_handler (ac_bat_initialized : Bool) (status : Int) :
    List Effect × Int :=
  (if ac_bat_initialized
   then [Effect.power_supply_changed_ac, Effect.power_supply_changed_bat]
   else [], status)

/-- One entry of the sparse keymap: its type tag, scancode (event code) and
reported keycode. -/
structure key_entry where
  typ : Nat
  code : Int
  keycode : Int
deriving DecidableEq, Repr

/-- `KE_SW` / `KE_KEY` type tags (values immaterial, kept distinct). -/
def KE_SW : Nat := 0

def KE_KEY : Nat := 1

/-- `yeeloong_keymap` from the source (the `KE_END` sentinel terminates the
C array and is not part of the lookup domain). -/
def yeeloong_keymap : List key_entry :=
  [⟨KE_SW, EVENT_LID, SW_LID⟩,
   ⟨KE_KEY, EVENT_CAMERA, KEY_CAMERA⟩,
   ⟨KE_KEY, EVENT_SLEEP, KEY_SLEEP⟩,
   ⟨KE_KEY, EVENT_DISPLAY_TOGGLE, KEY_DISPLAYTOGGLE⟩,
   ⟨KE_KEY, EVENT_SWITCHVIDEOMODE, KEY_SWITCHVIDEOMODE⟩,
   ⟨KE_KEY, EVENT_AUDIO_MUTE, KEY_MUTE⟩,
   ⟨KE_KEY, EVENT_WLAN, KEY_WLAN⟩,
   ⟨KE_KEY, EVENT_DISPLAY_BRIGHTNESS, KEY_BRIGHTNESSUP⟩,
   ⟨KE_KEY, EVENT_DISPLAY_BRIGHTNESS, KEY_BRIGHTNESSDOWN⟩,
   ⟨KE_KEY, EVENT_AUDIO_VOLUME, KEY_VOLUMEUP⟩,
   ⟨KE_KEY, EVENT_AUDIO_VOLUME, KEY_VOLUMEDOWN⟩]

/-- `sparse_keymap_entry_from_scancode`: index of the first keymap entry
whose scancode matches `event` (the C code returns a pointer into the
array; we return its index). -/
def sparse_keymap_entry_from_scancode (event : Int) : Option Nat :=
  yeeloong_keymap.findIdx? (fun e => e.code == event)

/-- `get_event_key_entry(event, status)`: resolve the keymap entry for
`event`; for the brightness and volume axes, step to the adjacent
"decrease" entry when the sample is 0 or below the stored last sample, and
unconditionally store the sample as the new last sample for that axis. -/
def get_event_key_entry (event status : Int) (s : DriverState) :
    Option Nat × DriverState :=
  match sparse_keymap_entry_from_scancode event with
  | none => (none, s)
  | some i =>
    if event = EVENT_DISPLAY_BRIGHTNESS then
      (some (if status = 0 ∨ status < s.old_brightness_status then i + 1 else i),
       { s with old_brightness_status := status })
    else if event = EVENT_AUDIO_VOLUME then
      (some (if status = 0 ∨ status < s.old_volume_status then i + 1 else i),
       { s with old_volume_status := status })
    else (some i, s)

/-- `report_lid_switch(status)`: report the negated raw lid bit as the
`SW_LID` switch state, synchronize, and return `status`. -/
def report_lid_switch (status : Int) : List Effect × Int :=
  ([Effect.input_report_switch SW_LID (status == 0), Effect.input_sync], status)

/-- `do_event_action(event)`: resolve the event's register (read it for the
raw status, else 0) and handler (apply it, else pass the raw status
through), then resolve the keymap entry via `get_event_key_entry` and
report either the lid switch (inverted) or a key press-and-release.
`env` supplies the current EC register bytes, `ec_kb3310b_ver` the EC
firmware version string and `ac_bat_initialized` the power-supply
registration flag.  Returns the new driver state and the effect trace. -/
def do_event_action (env : Reg → Nat) (ec_kb3310b_ver : List Nat)
    (ac_bat_initialized : Bool) (event : Int) (s : DriverState) :
    DriverState × List Effect :=
  let reg : Option Reg :=
    if event = EVENT_LID then some Reg.LID_DETECT
    else if event = EVENT_CRT_DETECT then some Reg.CRT_DETECT
    else if event = EVENT_CAMERA then some Reg.CAMERA_STATUS
    else if event = EVENT_USB_OC2 then some Reg.USB2_FLAG
    else if event = EVENT_USB_OC0 then some Reg.USB0_FLAG
    else if event = EVENT_DISPLAY_TOGGLE then some Reg.DISPLAY_LCD
    else if event = EVENT_AUDIO_MUTE then some Reg.AUDIO_MUTE
    else if event = EVENT_DISPLAY_BRIGHTNESS then some Reg.DISPLAY_BRIGHTNESS
    else if event = EVENT_AUDIO_VOLUME then some Reg.AUDIO_VOLUME
    else none
  let status0 : Int :=
    match reg with
    | some r => (env r : Int)
    | none => 0
  let step : DriverState × List Effect × Int :=
    if event = EVENT_SWITCHVIDEOMODE then
      let r := switchvideomode_handler (env Reg.CRT_DETECT : Int) status0
                 s.video_output_status
      ({ s with video_output_status := r.vos }, r.effects, r.ret)
    else if event = EVENT_CRT_DETECT then
      let r := crt_detect_handler status0
      (s, r.1, r.2)
    else if event = EVENT_CAMERA then
      let r := camera_handler (env Reg.CAMERA_CONTROL) status0
      (s, r.1, r.2)
    else if event = EVENT_USB_OC2 then
      let r := usb2_handler status0
      (s, r.1, r.2)
    else if event = EVENT_USB_OC0 then
      let r := usb0_handler status0
      (s, r.1, r.2)
    else if event = EVENT_DISPLAY_TOGGLE then
      let r := displaytoggle_handler ec_kb3310b_ver status0
      (s, r.1, r.2)
    else if event = EVENT_AC_BAT then
      let r := ac_bat_handler ac_bat_initialized status0
      (s, r.1, r.2)
    else (s, [], status0)
  let s1 := step.1
  let handlerEffects := step.2.1
  let status := step.2.2
  let keyStep := get_event_key_entry event status s1
  let reportEffects : List Effect :=
    match keyStep.1 with
    | none => []
    | some i =>
      match yeeloong_keymap.get? i with
      | some e =>
        if e.keycode = SW_LID then (report_lid_switch status).1
        else [Effect.sparse_keymap_report i]
      | none => []
  (keyStep.2, handlerEffects ++ reportEffects)

/-- Verdict returned to the interrupt subsystem. -/
inductive IrqVerdict where
  | IRQ_NONE
  | IRQ_HANDLED
deriving DecidableEq, Repr

/-- `sci_irq_handler(irq)`: the SCI interrupt entry point.  The constants
`SCI_IRQ_NUM`, `EVENT_START` and `EVENT_END` live in the companion header
`ec_kb3310b.h` (not under `src/`); modelled from the spec, which fixes
only that events form one bounded contiguous range, they are abstracted as
the parameters `sci_irq_num`, `event_start` and `event_end`.  `query_ret`
is the result of `ec_query_event_num()` and `event` the number returned by
`ec_get_event_num()`.  Returns the verdict, the new driver state and the
emitted effects. -/
def sci_irq_handler (sci_irq_num event_start event_end : Int)
    (irq query_ret event : Int) (env : Reg → Nat)
    (ec_kb3310b_ver : List Nat) (ac_bat_initialized : Bool)
    (s : DriverState) : IrqVerdict × DriverState × List Effect :=
  if irq ≠ sci_irq_num then (IrqVerdict.IRQ_NONE, s, [])
  else if query_ret < 0 then (IrqVerdict.IRQ_NONE, s, [])
  else if event < event_start ∨ event > event_end then
    (IrqVerdict.IRQ_NONE, s, [])
  else
    let r := do_event_action env ec_kb3310b_ver ac_bat_initialized event s
    (IrqVerdict.IRQ_HANDLED, r.1, r.2)

/-- Observable steps of `sci_irq_init`: the MSR reads/writes, the flush
event-number query, the settling delay (`mdelay`, argument in
milliseconds) and the three GPIO control-port writes. -/
inductive InitStep where
  | rdmsr_divil_lbar_gpio
  | ec_query_event_num
  | mdelay (msec : Nat)
  | rdmsr (addr : Nat)
  | wrmsr (addr : Nat)
  | outl (offset : Nat)
deriving DecidableEq, Repr

/-- `sci_irq_init()`: read the GPIO base MSR, issue the flush event-number
query (aborting with its return value if it fails), wait `mdelay(10000)`,
reprogram the three routing MSRs under a critical section, and program the
three GPIO control ports.  `query_ret` is the flush query's result; the
routine returns its step trace and its return value. -/
def sci_irq_init (query_ret : Int) : List InitStep × Int :=
  if query_ret ≠ 0 then
    ([InitStep.rdmsr_divil_lbar_gpio, InitStep.ec_query_event_num], query_ret)
  else
    ([InitStep.rdmsr_divil_lbar_gpio, InitStep.ec_query_event_num,
      InitStep.mdelay 10000,
      InitStep.rdmsr 0x80000024, InitStep.wrmsr 0x80000024,
      InitStep.rdmsr 0x80000025, InitStep.wrmsr 0x80000025,
      InitStep.rdmsr 0x80000023, InitStep.wrmsr 0x80000023,
      InitStep.outl 0xA0, InitStep.outl 0xA4, InitStep.outl 0xB8], 0)

/-- The values the `video_output_status` static can hold over the driver's
lifetime: 0 at initialization, then whatever any sequence of
`switchvideomode_handler` invocations (with arbitrary CRT-detect reads and
status arguments) produces. -/
inductive vosReachable : Int → Prop where
  | init : vosReachable 0
  | step (crt_detect status v : Int) : vosReachable v →
      vosReachable (switchvideomode_handler crt_detect status v).vos

/-! ### Helper lemmas -/

lemma brightness_keymap_index :
    sparse_keymap_entry_from_scancode EVENT_DISPLAY_BRIGHTNESS = some 7 := by
  decide

lemma volume_keymap_index :
    sparse_keymap_entry_from_scancode EVENT_AUDIO_VOLUME = some 9 := by
  decide

lemma get_event_key_entry_brightness (status : Int) (s : DriverState) :
    get_event_key_entry EVENT_DISPLAY_BRIGHTNESS status s
      = (some (if status = 0 ∨ status < s.old_brightness_status then 8 else 7),
         { s with old_brightness_status := status }) := by
  unfold get_event_key_entry
  rw [brightness_keymap_index]
  norm_num [EVENT_DISPLAY_BRIGHTNESS]

lemma get_event_key_entry_volume (status : Int) (s : DriverState) :
    get_event_key_entry EVENT_AUDIO_VOLUME status s
      = (some (if status = 0 ∨ status < s.old_volume_status then 10 else 9),
         { s with old_volume_status := status }) := by
  unfold get_event_key_entry
  rw [volume_keymap_index]
  norm_num [EVENT_AUDIO_VOLUME, EVENT_DISPLAY_BRIGHTNESS]

lemma switchvideomode_vos (crt_detect status v : Int) :
    (switchvideomode_handler crt_detect status v).vos
      = if crt_detect = OFF then v else (if v + 1 > 4 then 1 else v + 1) := by
  unfold switchvideomode_handler
  by_cases h : crt_detect = OFF
  · simp [h]
  · simp [h]

/-! ### Claims -/

/-- C5: for the external-video-toggle event, when the CRT-presence register
reads "not detected" (`OFF`) the handler returns early: the cycle index is
left unchanged and no display-output side effect is performed. -/
theorem switchvideomode_not_detected (status vos : Int) :
    switchvideomode_handler OFF status vos = ⟨vos, [], 0⟩ := by
  simp [switchvideomode_handler]

/-- C7: for every input status, the camera handler writes the EC
camera-control register with its previously read value OR'd with bit 1 set
(the written value always has bit 1 set), and returns its input status
unchanged. -/
theorem camera_handler_sets_bit1 (cam : Nat) (status : Int) :
    camera_handler cam status
      = ([Effect.ec_write Reg.CAMERA_CONTROL (cam ||| (1 <<< 1))], status)
    ∧ Nat.testBit (cam ||| (1 <<< 1)) 1 = true := by
  constructor
  · rfl
  · simp [Nat.testBit_or]
    right
    decide

/-- C9: the settling delay issued right after the flush event-number query
in `sci_irq_init` is `mdelay(10000)` — 10000 milliseconds, which is NOT a
value in the tens-of-milliseconds range (this supports recording the
claim as a code bug: the spec's intent of tens of milliseconds matches
`udelay(10000)`, not `mdelay(10000)`). -/
theorem sci_irq_init_mdelay_value :
    (sci_irq_init 0).1.get? 2 = some (InitStep.mdelay 10000)
    ∧ ¬ (10000 < 100) := by
  decide

/-- C4: the display-toggle handler performs the LCD display-output side
effect if and only if the EC firmware version string compares strictly
less than "EC_VER=PQ1D26" under case-insensitive comparison of at most the
first 64 bytes, and always returns its input status unchanged. -/
theorem displaytoggle_version_gate (ec_kb3310b_ver : List Nat) (status : Int) :
    ((displaytoggle_handler ec_kb3310b_ver status).1
       = if strncasecmp ec_kb3310b_ver (asciiOf ("EC_VER=PQ1D26")) 64 < 0
         then [Effect.display_vo_set LCD status] else [])
    ∧ ((displaytoggle_handler ec_kb3310b_ver status).1 ≠ []
       ↔ strncasecmp ec_kb3310b_ver (asciiOf ("EC_VER=PQ1D26")) 64 < 0)
    ∧ (displaytoggle_handler ec_kb3310b_ver status).2 = status := by
  refine ⟨?_, ?_, rfl⟩ <;>
    by_cases h : strncasecmp ec_kb3310b_ver (asciiOf ("EC_VER=PQ1D26")) 64 < 0 <;>
      simp [displaytoggle_handler, ec_version_before, h]

/-- C2: on every key-entry resolution for the display-brightness axis (and
independently the audio-volume axis), the "decrease" entry (one past the
base entry) is selected precisely when the raw sample is 0 or strictly
below the stored last sample; otherwise the base entry is selected; and
the stored last sample for that axis becomes the current raw sample after
every call. -/
theorem get_event_key_entry_direction (status : Int) (s : DriverState) :
    ((get_event_key_entry EVENT_DISPLAY_BRIGHTNESS status s).1
       = some (if status = 0 ∨ status < s.old_brightness_status then 8 else 7))
    ∧ ((get_event_key_entry EVENT_DISPLAY_BRIGHTNESS status s).1 = some 8
       ↔ (status = 0 ∨ status < s.old_brightness_status))
    ∧ ((get_event_key_entry EVENT_DISPLAY_BRIGHTNESS status s).2.old_brightness_status
       = status)
    ∧ ((get_event_key_entry EVENT_AUDIO_VOLUME status s).1
       = some (if status = 0 ∨ status < s.old_volume_status then 10 else 9))
    ∧ ((get_event_key_entry EVENT_AUDIO_VOLUME status s).1 = some 10
       ↔ (status = 0 ∨ status < s.old_volume_status))
    ∧ ((get_event_key_entry EVENT_AUDIO_VOLUME status s).2.old_volume_status
       = status) := by
  rw [get_event_key_entry_brightness, get_event_key_entry_volume]
  by_cases hb : status = 0 ∨ status < s.old_brightness_status <;>
    by_cases hv : status = 0 ∨ status < s.old_volume_status <;>
      simp [hb, hv]

/-- C10: both per-axis last samples are initialized to -1 at driver load,
so the first event on an axis with a nonnegative raw sample resolves to
the base ("increase") entry unless the sample is exactly 0, in which case
it resolves to the "decrease" entry. -/
theorem first_sample_direction (status : Int) (h : 0 ≤ status) :
    driverInit.old_brightness_status = -1
    ∧ driverInit.old_volume_status = -1
    ∧ (get_event_key_entry EVENT_DISPLAY_BRIGHTNESS status driverInit).1
        = some (if status = 0 then 8 else 7)
    ∧ (get_event_key_entry EVENT_AUDIO_VOLUME status driverInit).1
        = some (if status = 0 then 10 else 9) := by
  have hlt : ¬ status < (-1 : Int) := by omega
  refine ⟨rfl, rfl, ?_, ?_⟩
  · rw [get_event_key_entry_brightness]
    simp [driverInit, hlt]
  · rw [get_event_key_entry_volume]
    simp [driverInit, hlt]

/-- Witness for C10 at the concrete first sample 3: nonzero, so both axes
resolve to the base ("increase") entry. -/
theorem first_sample_direction_witness :
    driverInit.old_brightness_status = -1
    ∧ driverInit.old_volume_status = -1
    ∧ (get_event_key_entry EVENT_DISPLAY_BRIGHTNESS 3 driverInit).1
        = some (if (3 : Int) = 0 then 8 else 7)
    ∧ (get_event_key_entry EVENT_AUDIO_VOLUME 3 driverInit).1
        = some (if (3 : Int) = 0 then 10 else 9) :=
  first_sample_direction 3 (by decide)

/-- C1: starting from driver initialization, with the CRT-presence register
reading "detected" (nonzero) on every call, four consecutive invocations of
the switch-video-mode handler visit the cycle positions 1 (both on),
2 (LCD off / CRT on), 3 (both off), 4 (LCD on / CRT off) with the matching
(LCD, CRT) display-output pair each time, and a fifth invocation wraps back
to position 1 (both on). -/
theorem switchvideomode_detected_cycle (d1 d2 d3 d4 d5 : Int)
    (h1 : d1 ≠ OFF) (h2 : d2 ≠ OFF) (h3 : d3 ≠ OFF) (h4 : d4 ≠ OFF)
    (h5 : d5 ≠ OFF) :
    switchvideomode_handler d1 0 driverInit.video_output_status
      = ⟨1, yeeloong_vo_set ON ON, 1⟩
    ∧ switchvideomode_handler d2 0 1 = ⟨2, yeeloong_vo_set OFF ON, 2⟩
    ∧ switchvideomode_handler d3 0 2 = ⟨3, yeeloong_vo_set OFF OFF, 3⟩
    ∧ switchvideomode_handler d4 0 3 = ⟨4, yeeloong_vo_set ON OFF, 4⟩
    ∧ switchvideomode_handler d5 0 4 = ⟨1, yeeloong_vo_set ON ON, 1⟩ := by
  refine ⟨?_, ?_, ?_, ?_, ?_⟩ <;>
    norm_num [switchvideomode_handler, driverInit, h1, h2, h3, h4, h5]

/-- Witness for C1 with every CRT-presence read equal to 1 ("detected"). -/
theorem switchvideomode_detected_cycle_witness :
    switchvideomode_handler 1 0 driverInit.video_output_status
      = ⟨1, yeeloong_vo_set ON ON, 1⟩
    ∧ switchvideomode_handler 1 0 1 = ⟨2, yeeloong_vo_set OFF ON, 2⟩
    ∧ switchvideomode_handler 1 0 2 = ⟨3, yeeloong_vo_set OFF OFF, 3⟩
    ∧ switchvideomode_handler 1 0 3 = ⟨4, yeeloong_vo_set ON OFF, 4⟩
    ∧ switchvideomode_handler 1 0 4 = ⟨1, yeeloong_vo_set ON ON, 1⟩ :=
  switchvideomode_detected_cycle 1 1 1 1 1 (by decide) (by decide) (by decide)
    (by decide) (by decide)

/-- C3: after a successful event-number query, every event number outside
`[event_start, event_end]` makes the interrupt entry point return the
"not handled" verdict with the driver state unchanged and no effects
emitted (the dispatch pipeline is not invoked). -/
theorem sci_irq_handler_out_of_range
    (sci_irq_num event_start event_end irq query_ret event : Int)
    (env : Reg → Nat) (ec_kb3310b_ver : List Nat) (ac_bat_initialized : Bool)
    (s : DriverState) (hq : 0 ≤ query_ret)
    (hr : event < event_start ∨ event > event_end) :
    sci_irq_handler sci_irq_num event_start event_end irq query_ret event env
      ec_kb3310b_ver ac_bat_initialized s
      = (IrqVerdict.IRQ_NONE, s, []) := by
  unfold sci_irq_handler
  by_cases h1 : irq = sci_irq_num
  · have h2 : ¬ query_ret < 0 := by omega
    simp [h1, h2, hr]
  · simp [h1]

/-- Witness for C3: with the configured SCI line 4, range [128, 140], a
successful query (0) and the out-of-range event number 16, the entry point
reports IRQ_NONE and leaves the initial driver state untouched. -/
theorem sci_irq_handler_out_of_range_witness :
    sci_irq_handler 4 128 140 4 0 16 (fun _ => 0) [] false driverInit
      = (IrqVerdict.IRQ_NONE, driverInit, []) :=
  sci_irq_handler_out_of_range 4 128 140 4 0 16 (fun _ => 0) [] false
    driverInit (by decide) (by decide)

/-- C8 (counterpart of the lid rows of the keymap): for the lid event, the
dispatch path reports to the input layer exactly one `SW_LID` switch state
equal to the negation of the raw lid register bit (raw 0 reports true,
raw nonzero reports false), followed by the synchronization signal, and
leaves the driver state unchanged. -/
theorem lid_event_inverted_switch (env : Reg → Nat) (ec_kb3310b_ver : List Nat)
    (ac_bat_initialized : Bool) (s : DriverState) :
    (do_event_action env ec_kb3310b_ver ac_bat_initialized EVENT_LID s).2
      = [Effect.input_report_switch SW_LID ((env Reg.LID_DETECT : Int) == 0),
         Effect.input_sync]
    ∧ (do_event_action env ec_kb3310b_ver ac_bat_initialized EVENT_LID s).1
      = s :=
  ⟨rfl, rfl⟩

/-- C6 counterexample: at driver initialization — before the first
invocation of the switch-video-mode handler — the stored cycle index is 0,
which is NOT in the range [1, 4] the claim asserts for every point of the
driver's lifetime. -/
theorem vos_initial_outside_range :
    ¬ (1 ≤ driverInit.video_output_status
       ∧ driverInit.video_output_status ≤ 4) := by
  decide

/-- C6 (amended): the cycle index starts at 0 at driver initialization and
always stays in [0, 4]; after any invocation in which the CRT-presence
register reads "detected" it lies in [1, 4], wrapping from 4 back to 1,
while a "not detected" invocation leaves it unchanged. -/
theorem vos_cycle_range :
    driverInit.video_output_status = 0
    ∧ (∀ v : Int, vosReachable v → 0 ≤ v ∧ v ≤ 4)
    ∧ (∀ d st v : Int, d ≠ OFF → 0 ≤ v → v ≤ 4 →
        1 ≤ (switchvideomode_handler d st v).vos
        ∧ (switchvideomode_handler d st v).vos ≤ 4)
    ∧ (∀ d st : Int, d ≠ OFF → (switchvideomode_handler d st 4).vos = 1)
    ∧ (∀ st v : Int, (switchvideomode_handler OFF st v).vos = v) := by
  refine ⟨rfl, ?_, ?_, ?_, ?_⟩
  · intro v h
    induction h with
    | init => omega
    | step d st v hv ih =>
      rw [switchvideomode_vos]
      by_cases hd : d = OFF <;> simp [hd] <;> omega
  · intro d st v hd h0 h4
    rw [switchvideomode_vos]
    simp [hd]
    omega
  · intro d st hd
    rw [switchvideomode_vos]
    simp [hd]
  · intro st v
    rw [switchvideomode_vos]
    simp

/-- Witness for C6 (amended): the initial index 0 is within [0, 4], and a
CRT-detected invocation from index 4 wraps back to 1. -/
theorem vos_cycle_range_witness :
    ((0 : Int) ≤ 0 ∧ (0 : Int) ≤ 4)
    ∧ (1 ≤ (switchvideomode_handler 1 0 4).vos
       ∧ (switchvideomode_handler 1 0 4).vos ≤ 4)
    ∧ (switchvideomode_handler 1 0 4).vos = 1 :=
  ⟨vos_cycle_range.2.1 0 vosReachable.init,
   vos_cycle_range.2.2.1 1 0 4 (by decide) (by decide) (by decide),
   vos_cycle_range.2.2.2.1 1 0 (by decide)⟩

end Yeeloong
